import Mathlib

/-!
Shallow embedding of `saleor/graphql/page/mutations.py`: the Page / PageType
GraphQL mutations (create, update, delete) with their input cleaning,
attribute-kind validation, add/remove duplicate detection and the
many-to-many association save steps.

External collaborators that live outside this module (the slug helper
`validate_slug_and_generate_if_needed`, `get_duplicates_ids`,
`clean_seo_fields`, graphene's global-id encoding and argument defaults)
are modelled from the specification, each marked in its doc comment.
-/

/-- `saleor.product.AttributeType`: the kind of an attribute definition.
Only the `PAGE_TYPE` kind may associate with a page type. -/
inductive AttributeType where
  | PAGE_TYPE
  | PRODUCT_TYPE
deriving DecidableEq, Repr

/-- An attribute entity as the mutations see it after the framework has
resolved incoming global ids to model instances: a primary key and a kind. -/
structure Attribute where
  pk : Nat
  type : AttributeType
deriving DecidableEq, Repr

/-- `saleor.page.error_codes.PageErrorCode` (the members this module uses). -/
inductive PageErrorCode where
  | REQUIRED
  | INVALID
  | DUPLICATED_INPUT_ITEM
  | GRAPHQL_ERROR
deriving DecidableEq, Repr

/-- A parameter carried by a validation error: either a globally encoded
identifier string or a resolved attribute entity. -/
inductive ErrParam where
  | gid (s : String)
  | attr (a : Attribute)
deriving DecidableEq, Repr

/-- `django.core.exceptions.ValidationError` as this module uses it:
a message, an error code and the `params` list stored under the
`attributes` parameter key. -/
structure ValidationErr where
  message : String
  code : PageErrorCode
  params : List ErrParam
deriving DecidableEq, Repr

/-- The error accumulator: Python's `defaultdict(list)` mapping a field name
to its pending errors, modelled as the ordered list of (field, error) pairs
appended so far. `errors[field].append(e)` appends the pair `(field, e)`;
Python's `if errors:` is non-emptiness of this list. -/
abbrev Errors := List (String × ValidationErr)

/-- Modelled from the spec: graphene's `Node.to_global_id`, the external
globally-unique encoding of `(typename, pk)`; the encoding itself is opaque
to this module, only injectivity on the pk matters. -/
def to_global_id (typename : String) (pk : Nat) : String :=
  typename ++ ":" ++ toString pk

/-- Modelled from the spec: the external slug-generation utility (the spec's
"Slug: URL-safe unique identifier derived from a human-readable field"),
modelled as turning spaces into hyphens. -/
def slugify (s : String) : String :=
  String.mk (s.data.map (fun c => if c = ' ' then '-' else c))

/-- Modelled from the spec: `validate_slug_and_generate_if_needed` from
`saleor.graphql.core.utils` (not under src/). Spec 4.1: "Output:
cleaned-input with a valid, unique slug — generated from the source field if
absent. Failure: raises a 'required' validation error (mapped to field
'slug') if neither slug nor source field is available." The spec states no
further dependence on the instance, so the model takes the cleaned input's
slug and source-field values and returns the resulting slug value. -/
def validate_slug_and_generate_if_needed (slug source : Option String) :
    Except ValidationErr (Option String) :=
  match slug with
  | some s => .ok (some s)
  | none =>
    match source with
    | some src => .ok (some (slugify src))
    | none =>
      .error { message := "Slug value cannot be blank."
               code := PageErrorCode.REQUIRED
               params := [] }

/-- Modelled from the spec: `get_duplicates_ids` from
`saleor.graphql.core.utils` (not under src/). Spec 4.3: "given two id
collections, compute their intersection". The result is a set, modelled as
a deduplicated list; an absent or empty collection yields no duplicates. -/
def get_duplicates_ids (first_list second_list : Option (List Attribute)) :
    List Attribute :=
  match first_list, second_list with
  | some f, some s =>
    if f.isEmpty || s.isEmpty then []
    else (f.dedup).filter (fun x => x ∈ s)
  | _, _ => []

/-- `SeoInput` from `saleor.graphql.core.types.common`: nested SEO fields. -/
structure SeoInput where
  title : Option String
  description : Option String
deriving DecidableEq, Repr

/-- Modelled from the spec: `clean_seo_fields` from
`saleor.graphql.core.utils` (not under src/): flattens the nested `seo`
input into the cleaned input's `seo_title` / `seo_description` fields. -/
def clean_seo_fields (seo : Option SeoInput) : Option String × Option String :=
  match seo with
  | some s => (s.title, s.description)
  | none => (none, none)

/-- `PageInput`: the input object for pageCreate / pageUpdate. -/
structure PageInput where
  slug : Option String
  title : Option String
  content : Option String
  content_json : Option String
  is_published : Option Bool
  publication_date : Option String
  seo : Option SeoInput
deriving DecidableEq, Repr

/-- The cleaned input produced by `PageCreate.clean_input`: the input fields
with the slug validated/generated and the SEO fields flattened. -/
structure PageCleanedInput where
  slug : Option String
  title : Option String
  content : Option String
  content_json : Option String
  is_published : Option Bool
  publication_date : Option String
  seo_title : Option String
  seo_description : Option String
deriving DecidableEq, Repr

/-- `PageCreate.clean_input`: the framework's `super().clean_input` (field
coercion, modelled as the identity on the already-typed input) followed by
slug validation — on failure the error's code is set to `REQUIRED` and a
`ValidationError({"slug": error})` is raised — and SEO field cleaning. -/
def PageCreate_clean_input (data : PageInput) :
    Except Errors PageCleanedInput :=
  match validate_slug_and_generate_if_needed data.slug data.title with
  | .error e => .error [("slug", { e with code := PageErrorCode.REQUIRED })]
  | .ok slug =>
    let (seo_title, seo_description) := clean_seo_fields data.seo
    .ok { slug := slug
          title := data.title
          content := data.content
          content_json := data.content_json
          is_published := data.is_published
          publication_date := data.publication_date
          seo_title := seo_title
          seo_description := seo_description }

/-- `PageUpdate` subclasses `PageCreate` and overrides only `Arguments` and
`Meta`; it inherits `clean_input` unchanged, so its input cleaning is
literally `PageCreate.clean_input`. -/
def PageUpdate_clean_input : PageInput → Except Errors PageCleanedInput :=
  PageCreate_clean_input

/-- `PageTypeCreateInput`: name, slug and the list of attributes to assign
(after the framework has resolved the incoming ids to entities). -/
structure PageTypeCreateInput where
  name : Option String
  slug : Option String
  add_attributes : Option (List Attribute)
deriving DecidableEq, Repr

/-- `PageTypeUpdateInput` extends the create input with the list of
attributes to unassign. -/
structure PageTypeUpdateInput extends PageTypeCreateInput where
  remove_attributes : Option (List Attribute)
deriving DecidableEq, Repr

/-- `PageTypeMixin.validate_attributes`: if the collection is truthy,
collect the global ids of attributes whose kind is not `PAGE_TYPE`; if any
exist, append one `INVALID` error carrying them to `errors[field]`. -/
def validate_attributes (errors : Errors)
    (attributes : Option (List Attribute)) (field : String) : Errors :=
  match attributes with
  | none => errors
  | some attrs =>
    if attrs.isEmpty then errors
    else
      let not_valid_attributes :=
        (attrs.filter (fun attr => attr.type ≠ AttributeType.PAGE_TYPE)).map
          (fun attr => to_global_id "Attribute" attr.pk)
      if not_valid_attributes.isEmpty then errors
      else
        errors ++ [(field,
          { message := "Only page type attributes allowed."
            code := PageErrorCode.INVALID
            params := not_valid_attributes.map ErrParam.gid })]

/-- `PageTypeUpdate.check_for_duplicates`: compute the ids present on both
the add and the remove list; if any, append one `DUPLICATED_INPUT_ITEM`
error carrying them to `errors["attributes"]`. -/
def check_for_duplicates (errors : Errors)
    (add_attributes remove_attributes : Option (List Attribute)) : Errors :=
  let duplicated_ids := get_duplicates_ids add_attributes remove_attributes
  if duplicated_ids.isEmpty then errors
  else
    errors ++ [("attributes",
      { message := "The same object cannot be in both list" ++
          "for adding and removing items."
        code := PageErrorCode.DUPLICATED_INPUT_ITEM
        params := duplicated_ids.map ErrParam.attr })]

/-- `PageTypeCreate.clean_input`: slug validation (a failure gets code
`REQUIRED` and is appended under `errors["slug"]`), then add-attributes
validation; if the accumulator is non-empty, raise it, else return the
cleaned input. -/
def PageTypeCreate_clean_input (data : PageTypeCreateInput) :
    Except Errors PageTypeCreateInput :=
  let (cleaned_input, errors) :=
    match validate_slug_and_generate_if_needed data.slug data.name with
    | .ok slug => ({ data with slug := slug }, ([] : Errors))
    | .error e =>
      (data, [("slug", { e with code := PageErrorCode.REQUIRED })])
  let errors :=
    validate_attributes errors cleaned_input.add_attributes "add_attributes"
  if errors.isEmpty then .ok cleaned_input else .error errors

/-- `PageTypeUpdate.clean_input`: slug validation, add-attributes
validation, remove-attributes validation, then the add/remove duplicate
check; if the accumulator is non-empty, raise it, else return the cleaned
input. -/
def PageTypeUpdate_clean_input (data : PageTypeUpdateInput) :
    Except Errors PageTypeUpdateInput :=
  let (cleaned_input, errors) :=
    match validate_slug_and_generate_if_needed data.slug data.name with
    | .ok slug => ({ data with slug := slug }, ([] : Errors))
    | .error e =>
      (data, [("slug", { e with code := PageErrorCode.REQUIRED })])
  let add_attributes := cleaned_input.add_attributes
  let errors := validate_attributes errors add_attributes "add_attributes"
  let remove_attributes := cleaned_input.remove_attributes
  let errors :=
    validate_attributes errors remove_attributes "remove_attributes"
  let errors :=
    check_for_duplicates errors cleaned_input.add_attributes
      remove_attributes
  if errors.isEmpty then .ok cleaned_input else .error errors

/-- `PageTypeCreate._save_m2m`: after the framework's save, add the
attributes listed under `add_attributes` (when the key is present) to the
page type's `page_attributes` association set. -/
def PageTypeCreate_save_m2m (page_attributes : Finset Attribute)
    (cleaned_data : PageTypeCreateInput) : Finset Attribute :=
  match cleaned_data.add_attributes with
  | some attributes => page_attributes ∪ attributes.toFinset
  | none => page_attributes

/-- `PageTypeUpdate._save_m2m`, embedded exactly as written: the local
`attributes` is first bound to `remove_attributes` and immediately rebound
to `add_attributes`; both the `.remove(*attributes)` and the
`.add(*attributes)` guard and call then see the second binding. -/
def PageTypeUpdate_save_m2m (page_attributes : Finset Attribute)
    (cleaned_data : PageTypeUpdateInput) : Finset Attribute :=
  let attributes := cleaned_data.remove_attributes
  let attributes := cleaned_data.add_attributes
  let page_attributes :=
    match attributes with
    | some attrs => page_attributes \ attrs.toFinset
    | none => page_attributes
  match attributes with
  | some attrs => page_attributes ∪ attrs.toFinset
  | none => page_attributes

/-- The persisted state of a page type: its scalar fields and the
`page_attributes` many-to-many association set. -/
structure PageTypeState where
  name : Option String
  slug : Option String
  page_attributes : Finset Attribute
deriving DecidableEq

/-- The pageTypeUpdate mutation pipeline on a loaded instance: clean the
input (a raised validation error aborts before any save, leaving the state
untouched), then persist the cleaned scalar fields and run `_save_m2m`.
Returns the resulting state and the raised errors, if any. -/
def pageTypeUpdate_mutation (inst : PageTypeState)
    (data : PageTypeUpdateInput) : PageTypeState × Option Errors :=
  match PageTypeUpdate_clean_input data with
  | .error errs => (inst, some errs)
  | .ok cleaned_input =>
    let inst :=
      { inst with
        name := match cleaned_input.name with
          | some n => some n
          | none => inst.name
        slug := match cleaned_input.slug with
          | some s => some s
          | none => inst.slug }
    ({ inst with
        page_attributes :=
          PageTypeUpdate_save_m2m inst.page_attributes cleaned_input },
      none)

/-- The pageTypeCreate mutation pipeline: clean the input (a raised
validation error aborts before any instance is created), then build the new
instance — its association set starts empty — and run `_save_m2m`. -/
def pageTypeCreate_mutation (data : PageTypeCreateInput) :
    Option PageTypeState × Option Errors :=
  match PageTypeCreate_clean_input data with
  | .error errs => (none, some errs)
  | .ok cleaned_input =>
    let inst : PageTypeState :=
      { name := cleaned_input.name
        slug := cleaned_input.slug
        page_attributes := ∅ }
    (some { inst with
        page_attributes :=
          PageTypeCreate_save_m2m inst.page_attributes cleaned_input },
      none)

/-- A graphene argument declaration: its base GraphQL type and whether it
was declared `required=True` (graphene arguments default to not required,
rendering as a nullable type; `required=True` renders the non-null `!`). -/
structure GrapheneArg where
  gql_base_type : String
  required : Bool
deriving DecidableEq, Repr

/-- `graphene.ID(...)` with the given `required` flag. -/
def graphene_ID (required : Bool) : GrapheneArg :=
  { gql_base_type := "ID", required := required }

/-- `PageUpdate.Arguments.id = graphene.ID(required=True, ...)`. -/
def PageUpdate_Arguments_id : GrapheneArg := graphene_ID true

/-- `PageDelete.Arguments.id = graphene.ID(required=True, ...)`. -/
def PageDelete_Arguments_id : GrapheneArg := graphene_ID true

/-- `PageTypeUpdate.Arguments.id = graphene.ID(description=...)`: declared
without `required=True`, so it takes graphene's default, not required. -/
def PageTypeUpdate_Arguments_id : GrapheneArg := graphene_ID false

/-- Modelled from the spec: `pageTypeDelete(id: ID!)` is listed in the
spec's external interface, but no `PageTypeDelete` class is defined in this
module; per the spec its id argument is a required `ID!`. -/
def PageTypeDelete_Arguments_id : GrapheneArg := graphene_ID true

/-- The global ids of the attributes in a collection whose kind is not
`PAGE_TYPE` — the offending ids that `validate_attributes` reports. -/
def invalid_global_ids (attributes : Option (List Attribute)) : List String :=
  ((attributes.getD []).filter
      (fun attr => attr.type ≠ AttributeType.PAGE_TYPE)).map
    (fun attr => to_global_id "Attribute" attr.pk)

/-- The `INVALID` error `validate_attributes` appends, as a function of the
offending global ids. -/
def mk_invalid_error (gids : List String) : ValidationErr :=
  { message := "Only page type attributes allowed."
    code := PageErrorCode.INVALID
    params := gids.map ErrParam.gid }

/-- The `DUPLICATED_INPUT_ITEM` error `check_for_duplicates` appends, as a
function of the duplicated entities. -/
def mk_duplicated_error (dups : List Attribute) : ValidationErr :=
  { message := "The same object cannot be in both list" ++
      "for adding and removing items."
    code := PageErrorCode.DUPLICATED_INPUT_ITEM
    params := dups.map ErrParam.attr }

/-- Predicate picking out the duplicate-input errors accumulated under the
`attributes` key. -/
def is_duplicated_attributes_err (p : String × ValidationErr) : Bool :=
  decide (p.1 = "attributes" ∧
    p.2.code = PageErrorCode.DUPLICATED_INPUT_ITEM)

/-- The slug-validation stage of the accumulator: empty on success, the
single re-coded `REQUIRED` error under `slug` on failure. -/
def slug_error_list (slug source : Option String) : Errors :=
  match validate_slug_and_generate_if_needed slug source with
  | .ok _ => []
  | .error e => [("slug", { e with code := PageErrorCode.REQUIRED })]

/-- The cleaned input `PageTypeUpdate.clean_input` would return on success. -/
def update_cleaned_of (data : PageTypeUpdateInput) : PageTypeUpdateInput :=
  match validate_slug_and_generate_if_needed data.slug data.name with
  | .ok s => { data with slug := s }
  | .error _ => data

/-- The cleaned input `PageTypeCreate.clean_input` would return on success. -/
def create_cleaned_of (data : PageTypeCreateInput) : PageTypeCreateInput :=
  match validate_slug_and_generate_if_needed data.slug data.name with
  | .ok s => { data with slug := s }
  | .error _ => data

/-- The full error accumulator built by `PageTypeUpdate.clean_input`. -/
def update_errors (data : PageTypeUpdateInput) : Errors :=
  check_for_duplicates
    (validate_attributes
      (validate_attributes (slug_error_list data.slug data.name)
        data.add_attributes "add_attributes")
      data.remove_attributes "remove_attributes")
    data.add_attributes data.remove_attributes

/-- The full error accumulator built by `PageTypeCreate.clean_input`. -/
def create_errors (data : PageTypeCreateInput) : Errors :=
  validate_attributes (slug_error_list data.slug data.name)
    data.add_attributes "add_attributes"

theorem validate_attributes_eq (errors : Errors)
    (attributes : Option (List Attribute)) (field : String) :
    validate_attributes errors attributes field =
      if (invalid_global_ids attributes).isEmpty then errors
      else errors ++ [(field, mk_invalid_error (invalid_global_ids attributes))] := by
  cases attributes with
  | none => simp [validate_attributes, invalid_global_ids]
  | some l =>
    cases l with
    | nil => simp [validate_attributes, invalid_global_ids]
    | cons a t =>
      simp only [validate_attributes, invalid_global_ids, mk_invalid_error,
        Option.getD_some, List.isEmpty_cons, Bool.false_eq_true, if_false]

theorem check_for_duplicates_eq (errors : Errors)
    (add_attributes remove_attributes : Option (List Attribute)) :
    check_for_duplicates errors add_attributes remove_attributes =
      if (get_duplicates_ids add_attributes remove_attributes).isEmpty
      then errors
      else errors ++ [("attributes",
        mk_duplicated_error
          (get_duplicates_ids add_attributes remove_attributes))] := by
  rfl

theorem PageTypeCreate_clean_input_eq (data : PageTypeCreateInput) :
    PageTypeCreate_clean_input data =
      if (create_errors data).isEmpty then .ok (create_cleaned_of data)
      else .error (create_errors data) := by
  unfold PageTypeCreate_clean_input create_errors create_cleaned_of
    slug_error_list
  cases h : validate_slug_and_generate_if_needed data.slug data.name with
  | ok s => simp
  | error e => simp

theorem PageTypeUpdate_clean_input_eq (data : PageTypeUpdateInput) :
    PageTypeUpdate_clean_input data =
      if (update_errors data).isEmpty then .ok (update_cleaned_of data)
      else .error (update_errors data) := by
  unfold PageTypeUpdate_clean_input update_errors update_cleaned_of
    slug_error_list
  cases h : validate_slug_and_generate_if_needed data.slug data.name with
  | ok s => simp
  | error e => simp

theorem validate_attributes_append_ex (errors : Errors)
    (attrs : Option (List Attribute)) (field : String) :
    ∃ t, validate_attributes errors attrs field = errors ++ t := by
  rw [validate_attributes_eq]
  split
  · exact ⟨[], by simp⟩
  · exact ⟨_, rfl⟩

theorem check_for_duplicates_append_ex (errors : Errors)
    (a r : Option (List Attribute)) :
    ∃ t, check_for_duplicates errors a r = errors ++ t := by
  rw [check_for_duplicates_eq]
  split
  · exact ⟨[], by simp⟩
  · exact ⟨_, rfl⟩

theorem update_errors_append_ex (data : PageTypeUpdateInput) :
    ∃ t, update_errors data =
      slug_error_list data.slug data.name ++ t := by
  unfold update_errors
  obtain ⟨t1, h1⟩ := validate_attributes_append_ex
    (slug_error_list data.slug data.name) data.add_attributes
    "add_attributes"
  rw [h1]
  obtain ⟨t2, h2⟩ := validate_attributes_append_ex
    (slug_error_list data.slug data.name ++ t1) data.remove_attributes
    "remove_attributes"
  rw [h2]
  obtain ⟨t3, h3⟩ := check_for_duplicates_append_ex
    (slug_error_list data.slug data.name ++ t1 ++ t2)
    data.add_attributes data.remove_attributes
  rw [h3]
  exact ⟨t1 ++ t2 ++ t3, by simp⟩

theorem create_errors_append_ex (data : PageTypeCreateInput) :
    ∃ t, create_errors data =
      slug_error_list data.slug data.name ++ t := by
  unfold create_errors
  exact validate_attributes_append_ex _ _ _

theorem filter_dup_validate_attributes (errors : Errors)
    (attrs : Option (List Attribute)) (field : String) :
    (validate_attributes errors attrs field).filter
        is_duplicated_attributes_err =
      errors.filter is_duplicated_attributes_err := by
  rw [validate_attributes_eq]
  split
  · rfl
  · rw [List.filter_append]
    simp [is_duplicated_attributes_err, mk_invalid_error]

theorem filter_dup_slug_error_list (slug source : Option String) :
    (slug_error_list slug source).filter is_duplicated_attributes_err
      = [] := by
  unfold slug_error_list
  cases h : validate_slug_and_generate_if_needed slug source with
  | ok s => rfl
  | error e => simp [is_duplicated_attributes_err]

theorem filter_dup_update_errors (data : PageTypeUpdateInput) :
    (update_errors data).filter is_duplicated_attributes_err =
      if (get_duplicates_ids data.add_attributes
            data.remove_attributes).isEmpty then []
      else [("attributes",
        mk_duplicated_error
          (get_duplicates_ids data.add_attributes
            data.remove_attributes))] := by
  unfold update_errors
  rw [check_for_duplicates_eq]
  split
  · rw [filter_dup_validate_attributes, filter_dup_validate_attributes,
      filter_dup_slug_error_list]
  · rw [List.filter_append, filter_dup_validate_attributes,
      filter_dup_validate_attributes, filter_dup_slug_error_list]
    simp [is_duplicated_attributes_err, mk_duplicated_error]

theorem update_errors_ne_nil_of_dups (data : PageTypeUpdateInput)
    (h : get_duplicates_ids data.add_attributes data.remove_attributes
      ≠ []) :
    update_errors data ≠ [] := by
  unfold update_errors
  rw [check_for_duplicates_eq]
  split
  · rename_i hemp
    exact absurd (List.isEmpty_iff.mp hemp) h
  · simp

theorem slug_error_list_none :
    slug_error_list none none =
      [("slug", { message := "Slug value cannot be blank."
                  code := PageErrorCode.REQUIRED
                  params := [] })] := rfl

theorem get_duplicates_ids_ne_nil (b : Attribute) (f s : List Attribute)
    (hf : b ∈ f) (hs : b ∈ s) :
    get_duplicates_ids (some f) (some s) ≠ [] := by
  have hmem : b ∈ get_duplicates_ids (some f) (some s) := by
    unfold get_duplicates_ids
    have hfne : f.isEmpty = false := by
      cases f with
      | nil => cases hf
      | cons a t => rfl
    have hsne : s.isEmpty = false := by
      cases s with
      | nil => cases hs
      | cons a t => rfl
    simp only [get_duplicates_ids, hfne, hsne, Bool.or_self,
      Bool.false_eq_true, if_false]
    exact List.mem_filter.mpr ⟨List.mem_dedup.mpr hf, by simpa using hs⟩
  exact List.ne_nil_of_mem hmem

theorem invalid_global_ids_ne_nil (a : Attribute) (l : List Attribute)
    (ha : a ∈ l) (ht : a.type ≠ AttributeType.PAGE_TYPE) :
    invalid_global_ids (some l) ≠ [] := by
  unfold invalid_global_ids
  simp only [Option.getD_some]
  intro h
  rw [List.map_eq_nil_iff] at h
  have hmem : a ∈ l.filter (fun attr => attr.type ≠ AttributeType.PAGE_TYPE) :=
    List.mem_filter.mpr ⟨ha, by simpa using ht⟩
  rw [h] at hmem
  cases hmem

theorem invalid_global_ids_eq_nil (attrs : Option (List Attribute))
    (h : ∀ a ∈ attrs.getD [], a.type = AttributeType.PAGE_TYPE) :
    invalid_global_ids attrs = [] := by
  unfold invalid_global_ids
  rw [List.filter_eq_nil_iff.mpr ?_, List.map_nil]
  intro a ha
  simp [h a ha]

theorem req_slug_mem_update_errors (data : PageTypeUpdateInput)
    (h1 : data.slug = none) (h2 : data.name = none) :
    ∃ e, ("slug", e) ∈ update_errors data ∧
      e.code = PageErrorCode.REQUIRED := by
  obtain ⟨t, ht⟩ := update_errors_append_ex data
  rw [ht, h1, h2, slug_error_list_none]
  exact ⟨_, List.mem_append_left _ (List.mem_singleton.mpr rfl), rfl⟩

theorem update_errors_ne_nil_of_no_slug (data : PageTypeUpdateInput)
    (h1 : data.slug = none) (h2 : data.name = none) :
    update_errors data ≠ [] := by
  obtain ⟨t, ht⟩ := update_errors_append_ex data
  rw [ht, h1, h2, slug_error_list_none]
  simp

theorem req_slug_mem_create_errors (data : PageTypeCreateInput)
    (h1 : data.slug = none) (h2 : data.name = none) :
    ∃ e, ("slug", e) ∈ create_errors data ∧
      e.code = PageErrorCode.REQUIRED := by
  obtain ⟨t, ht⟩ := create_errors_append_ex data
  rw [ht, h1, h2, slug_error_list_none]
  exact ⟨_, List.mem_append_left _ (List.mem_singleton.mpr rfl), rfl⟩

theorem create_errors_ne_nil_of_no_slug (data : PageTypeCreateInput)
    (h1 : data.slug = none) (h2 : data.name = none) :
    create_errors data ≠ [] := by
  obtain ⟨t, ht⟩ := create_errors_append_ex data
  rw [ht, h1, h2, slug_error_list_none]
  simp

/-- C2: for every create/update input that provides neither a slug nor the
source field (title for Page, name for PageType), the mutation's input
cleaning fails with a validation error of code REQUIRED keyed to the field
"slug" — for pageCreate/pageUpdate, pageTypeCreate and pageTypeUpdate. -/
theorem C2_missing_slug_required
    (p : PageInput) (c : PageTypeCreateInput) (u : PageTypeUpdateInput)
    (hp1 : p.slug = none) (hp2 : p.title = none)
    (hc1 : c.slug = none) (hc2 : c.name = none)
    (hu1 : u.slug = none) (hu2 : u.name = none) :
    (∃ e, PageCreate_clean_input p = .error [("slug", e)] ∧
      e.code = PageErrorCode.REQUIRED) ∧
    (∃ errs e, PageTypeCreate_clean_input c = .error errs ∧
      ("slug", e) ∈ errs ∧ e.code = PageErrorCode.REQUIRED) ∧
    (∃ errs e, PageTypeUpdate_clean_input u = .error errs ∧
      ("slug", e) ∈ errs ∧ e.code = PageErrorCode.REQUIRED) := by
  refine ⟨?_, ?_, ?_⟩
  · unfold PageCreate_clean_input
    rw [hp1, hp2]
    exact ⟨_, rfl, rfl⟩
  · obtain ⟨e, hmem, hcode⟩ := req_slug_mem_create_errors c hc1 hc2
    have hne := create_errors_ne_nil_of_no_slug c hc1 hc2
    refine ⟨create_errors c, e, ?_, hmem, hcode⟩
    rw [PageTypeCreate_clean_input_eq,
      if_neg (by simpa [List.isEmpty_iff] using hne)]
  · obtain ⟨e, hmem, hcode⟩ := req_slug_mem_update_errors u hu1 hu2
    have hne := update_errors_ne_nil_of_no_slug u hu1 hu2
    refine ⟨update_errors u, e, ?_, hmem, hcode⟩
    rw [PageTypeUpdate_clean_input_eq,
      if_neg (by simpa [List.isEmpty_iff] using hne)]

/-- Witness for C2 at the all-absent inputs. -/
theorem C2_missing_slug_required_witness :
    (∃ e, PageCreate_clean_input
        ⟨none, none, none, none, none, none, none⟩ = .error [("slug", e)] ∧
      e.code = PageErrorCode.REQUIRED) ∧
    (∃ errs e, PageTypeCreate_clean_input ⟨none, none, none⟩ =
        .error errs ∧
      ("slug", e) ∈ errs ∧ e.code = PageErrorCode.REQUIRED) ∧
    (∃ errs e, PageTypeUpdate_clean_input ⟨⟨none, none, none⟩, none⟩ =
        .error errs ∧
      ("slug", e) ∈ errs ∧ e.code = PageErrorCode.REQUIRED) :=
  C2_missing_slug_required _ _ _ rfl rfl rfl rfl rfl rfl

/-- C3: `validate_attributes` appends exactly one INVALID error under the
given field, carrying the global ids of exactly the attributes whose kind
is not PAGE_TYPE, and leaves the accumulator unchanged when the collection
is absent, empty or all of kind PAGE_TYPE. -/
theorem C3_validate_attributes_contract (errors : Errors)
    (attributes : Option (List Attribute)) (field : String) :
    validate_attributes errors attributes field =
      if (invalid_global_ids attributes).isEmpty then errors
      else errors ++
        [(field, mk_invalid_error (invalid_global_ids attributes))] :=
  validate_attributes_eq errors attributes field

/-- C4: pageTypeUpdate input cleaning appends exactly one
DUPLICATED_INPUT_ITEM error under the accumulator key "attributes",
carrying exactly the entities common to the add and remove lists, when
that intersection is non-empty; and no such error when it is empty. -/
theorem C4_duplicates_contract (data : PageTypeUpdateInput) :
    (get_duplicates_ids data.add_attributes data.remove_attributes = [] →
      ∀ errs, PageTypeUpdate_clean_input data = .error errs →
        errs.filter is_duplicated_attributes_err = []) ∧
    (get_duplicates_ids data.add_attributes data.remove_attributes ≠ [] →
      ∃ errs, PageTypeUpdate_clean_input data = .error errs ∧
        errs.filter is_duplicated_attributes_err =
          [("attributes", mk_duplicated_error
            (get_duplicates_ids data.add_attributes
              data.remove_attributes))]) := by
  constructor
  · intro hdup errs herr
    rw [PageTypeUpdate_clean_input_eq] at herr
    split at herr
    · cases herr
    · cases herr
      rw [filter_dup_update_errors, if_pos (by simp [hdup])]
  · intro hdup
    have hne := update_errors_ne_nil_of_dups data hdup
    refine ⟨update_errors data, ?_, ?_⟩
    · rw [PageTypeUpdate_clean_input_eq,
        if_neg (by simpa [List.isEmpty_iff] using hne)]
    · rw [filter_dup_update_errors,
        if_neg (by simpa [List.isEmpty_iff] using hdup)]

/-- Witness for C4: an attribute listed on both lists, and disjoint lists. -/
theorem C4_duplicates_contract_witness :
    (get_duplicates_ids (some [⟨1, AttributeType.PAGE_TYPE⟩])
        (some [⟨1, AttributeType.PAGE_TYPE⟩]) ≠ []) ∧
    (∃ errs, PageTypeUpdate_clean_input
        ⟨⟨none, some "s", some [⟨1, AttributeType.PAGE_TYPE⟩]⟩,
          some [⟨1, AttributeType.PAGE_TYPE⟩]⟩ = .error errs ∧
      errs.filter is_duplicated_attributes_err =
        [("attributes", mk_duplicated_error
          (get_duplicates_ids (some [⟨1, AttributeType.PAGE_TYPE⟩])
            (some [⟨1, AttributeType.PAGE_TYPE⟩])))]) :=
  ⟨by decide,
    (C4_duplicates_contract
      ⟨⟨none, some "s", some [⟨1, AttributeType.PAGE_TYPE⟩]⟩,
        some [⟨1, AttributeType.PAGE_TYPE⟩]⟩).2 (by decide)⟩

theorem mem_update_errors_add_invalid (data : PageTypeUpdateInput)
    (h : invalid_global_ids data.add_attributes ≠ []) :
    ("add_attributes",
      mk_invalid_error (invalid_global_ids data.add_attributes)) ∈
      update_errors data := by
  unfold update_errors
  obtain ⟨t3, hc⟩ := check_for_duplicates_append_ex
    (validate_attributes
      (validate_attributes (slug_error_list data.slug data.name)
        data.add_attributes "add_attributes")
      data.remove_attributes "remove_attributes")
    data.add_attributes data.remove_attributes
  rw [hc]
  obtain ⟨t2, hv2⟩ := validate_attributes_append_ex
    (validate_attributes (slug_error_list data.slug data.name)
      data.add_attributes "add_attributes")
    data.remove_attributes "remove_attributes"
  rw [hv2]
  rw [validate_attributes_eq (slug_error_list data.slug data.name)
    data.add_attributes "add_attributes"]
  rw [if_neg (by simpa [List.isEmpty_iff] using h)]
  apply List.mem_append_left
  apply List.mem_append_left
  exact List.mem_append_right _ (List.mem_singleton.mpr rfl)

theorem mem_update_errors_dup (data : PageTypeUpdateInput)
    (h : get_duplicates_ids data.add_attributes data.remove_attributes
      ≠ []) :
    ("attributes",
      mk_duplicated_error
        (get_duplicates_ids data.add_attributes data.remove_attributes)) ∈
      update_errors data := by
  unfold update_errors
  rw [check_for_duplicates_eq,
    if_neg (by simpa [List.isEmpty_iff] using h)]
  exact List.mem_append_right _ (List.mem_singleton.mpr rfl)

/-- C5: with several violations at once (missing slug/name, a wrong-kind
attribute in the add list, and a non-empty add/remove intersection),
pageTypeUpdate's input cleaning raises one aggregated error carrying an
entry for every violated field. -/
theorem C5_error_accumulation (data : PageTypeUpdateInput)
    (addl reml : List Attribute) (a b : Attribute)
    (h1 : data.slug = none) (h2 : data.name = none)
    (h3 : data.add_attributes = some addl) (h4 : a ∈ addl)
    (h5 : a.type ≠ AttributeType.PAGE_TYPE)
    (h6 : data.remove_attributes = some reml)
    (h7 : b ∈ addl) (h8 : b ∈ reml) :
    ∃ errs, PageTypeUpdate_clean_input data = .error errs ∧
      (∃ e, ("slug", e) ∈ errs ∧ e.code = PageErrorCode.REQUIRED) ∧
      (∃ e, ("add_attributes", e) ∈ errs ∧
        e.code = PageErrorCode.INVALID) ∧
      (∃ e, ("attributes", e) ∈ errs ∧
        e.code = PageErrorCode.DUPLICATED_INPUT_ITEM) := by
  have hne := update_errors_ne_nil_of_no_slug data h1 h2
  have hinv : invalid_global_ids data.add_attributes ≠ [] := by
    rw [h3]
    exact invalid_global_ids_ne_nil a addl h4 h5
  have hdup : get_duplicates_ids data.add_attributes
      data.remove_attributes ≠ [] := by
    rw [h3, h6]
    exact get_duplicates_ids_ne_nil b addl reml h7 h8
  refine ⟨update_errors data, ?_, ?_, ?_, ?_⟩
  · rw [PageTypeUpdate_clean_input_eq,
      if_neg (by simpa [List.isEmpty_iff] using hne)]
  · exact req_slug_mem_update_errors data h1 h2
  · exact ⟨_, mem_update_errors_add_invalid data hinv, rfl⟩
  · exact ⟨_, mem_update_errors_dup data hdup, rfl⟩

/-- Witness for C5: missing slug and name, a PRODUCT_TYPE attribute on the
add list, and an attribute present on both lists. -/
theorem C5_error_accumulation_witness :
    ∃ errs, PageTypeUpdate_clean_input
        ⟨⟨none, none,
           some [⟨3, AttributeType.PRODUCT_TYPE⟩,
                 ⟨1, AttributeType.PAGE_TYPE⟩]⟩,
          some [⟨1, AttributeType.PAGE_TYPE⟩]⟩ = .error errs ∧
      (∃ e, ("slug", e) ∈ errs ∧ e.code = PageErrorCode.REQUIRED) ∧
      (∃ e, ("add_attributes", e) ∈ errs ∧
        e.code = PageErrorCode.INVALID) ∧
      (∃ e, ("attributes", e) ∈ errs ∧
        e.code = PageErrorCode.DUPLICATED_INPUT_ITEM) :=
  C5_error_accumulation _
    [⟨3, AttributeType.PRODUCT_TYPE⟩, ⟨1, AttributeType.PAGE_TYPE⟩]
    [⟨1, AttributeType.PAGE_TYPE⟩]
    ⟨3, AttributeType.PRODUCT_TYPE⟩ ⟨1, AttributeType.PAGE_TYPE⟩
    rfl rfl rfl (by decide) (by decide) rfl (by decide) (by decide)

/-- C6: a raised validation error aborts the mutation before any
persistence: a failing pageTypeUpdate leaves the loaded instance — its
association set included — exactly as it was, and a failing pageTypeCreate
creates no instance. -/
theorem C6_no_partial_persistence (st : PageTypeState)
    (data : PageTypeUpdateInput) (cdata : PageTypeCreateInput) :
    ((pageTypeUpdate_mutation st data).2 ≠ none →
      (pageTypeUpdate_mutation st data).1 = st) ∧
    ((pageTypeCreate_mutation cdata).2 ≠ none →
      (pageTypeCreate_mutation cdata).1 = none) := by
  constructor
  · intro h
    unfold pageTypeUpdate_mutation at h ⊢
    cases hcl : PageTypeUpdate_clean_input data with
    | error errs => rfl
    | ok cleaned =>
      rw [hcl] at h
      exact absurd rfl h
  · intro h
    unfold pageTypeCreate_mutation at h ⊢
    cases hcl : PageTypeCreate_clean_input cdata with
    | error errs => rfl
    | ok cleaned =>
      rw [hcl] at h
      exact absurd rfl h

/-- Witness for C6: a duplicate add/remove update request and a wrong-kind
create request, both failing and leaving state untouched. -/
theorem C6_no_partial_persistence_witness :
    (pageTypeUpdate_mutation
      ⟨some "FAQ", some "faq", {⟨1, AttributeType.PAGE_TYPE⟩}⟩
      ⟨⟨none, some "faq", some [⟨1, AttributeType.PAGE_TYPE⟩]⟩,
        some [⟨1, AttributeType.PAGE_TYPE⟩]⟩).1 =
      ⟨some "FAQ", some "faq", {⟨1, AttributeType.PAGE_TYPE⟩}⟩ ∧
    (pageTypeCreate_mutation
      ⟨some "FAQ", none, some [⟨3, AttributeType.PRODUCT_TYPE⟩]⟩).1 =
      none :=
  ⟨(C6_no_partial_persistence
      ⟨some "FAQ", some "faq", {⟨1, AttributeType.PAGE_TYPE⟩}⟩
      ⟨⟨none, some "faq", some [⟨1, AttributeType.PAGE_TYPE⟩]⟩,
        some [⟨1, AttributeType.PAGE_TYPE⟩]⟩
      ⟨some "FAQ", none, some [⟨3, AttributeType.PRODUCT_TYPE⟩]⟩).1
      (by decide),
   (C6_no_partial_persistence
      ⟨some "FAQ", some "faq", {⟨1, AttributeType.PAGE_TYPE⟩}⟩
      ⟨⟨none, some "faq", some [⟨1, AttributeType.PAGE_TYPE⟩]⟩,
        some [⟨1, AttributeType.PAGE_TYPE⟩]⟩
      ⟨some "FAQ", none, some [⟨3, AttributeType.PRODUCT_TYPE⟩]⟩).2
      (by decide)⟩

/-- C7 counterexample: the claim that pageTypeUpdate's id argument is
required like pageUpdate's and pageTypeDelete's is false — the source
declares `graphene.ID(description=...)` without `required=True`. -/
theorem C7_id_required_counterexample :
    ¬ (PageTypeUpdate_Arguments_id.required = true ∧
       PageUpdate_Arguments_id.required = true ∧
       PageTypeDelete_Arguments_id.required = true) := by
  decide

/-- C7 amended: pageTypeUpdate's id argument is a nullable ID (graphene's
default, no `required=True`), unlike pageUpdate's and the spec-modelled
pageTypeDelete's required ids. -/
theorem C7_id_not_required_amended :
    PageTypeUpdate_Arguments_id = graphene_ID false ∧
    PageTypeUpdate_Arguments_id.gql_base_type = "ID" ∧
    PageUpdate_Arguments_id = graphene_ID true ∧
    PageTypeDelete_Arguments_id = graphene_ID true := by
  decide

theorem create_cleaned_of_add (data : PageTypeCreateInput) :
    (create_cleaned_of data).add_attributes = data.add_attributes := by
  unfold create_cleaned_of
  cases h : validate_slug_and_generate_if_needed data.slug data.name with
  | ok s => rfl
  | error e => rfl

theorem update_cleaned_of_add (data : PageTypeUpdateInput) :
    (update_cleaned_of data).add_attributes = data.add_attributes := by
  unfold update_cleaned_of
  cases h : validate_slug_and_generate_if_needed data.slug data.name with
  | ok s => rfl
  | error e => rfl

/-- C8: a pageTypeCreate request whose slug/name validation succeeds and
whose add list holds only PAGE_TYPE attributes succeeds, and every listed
attribute ends up in the new page type's association set; with no add list
the association set stays empty. -/
theorem C8_create_associates (data : PageTypeCreateInput)
    (hslug : ∃ s, validate_slug_and_generate_if_needed data.slug data.name
      = .ok s)
    (hvalid : ∀ a ∈ data.add_attributes.getD [],
      a.type = AttributeType.PAGE_TYPE) :
    ∃ st, pageTypeCreate_mutation data = (some st, none) ∧
      (∀ a ∈ data.add_attributes.getD [], a ∈ st.page_attributes) ∧
      (data.add_attributes = none → st.page_attributes = ∅) := by
  obtain ⟨s, hs⟩ := hslug
  have hsl : slug_error_list data.slug data.name = [] := by
    unfold slug_error_list
    rw [hs]
  have hce : create_errors data = [] := by
    unfold create_errors
    rw [validate_attributes_eq,
      if_pos (by simp [invalid_global_ids_eq_nil data.add_attributes
        hvalid]),
      hsl]
  refine ⟨{ name := (create_cleaned_of data).name
            slug := (create_cleaned_of data).slug
            page_attributes :=
              PageTypeCreate_save_m2m ∅ (create_cleaned_of data) },
    ?_, ?_, ?_⟩
  · unfold pageTypeCreate_mutation
    rw [PageTypeCreate_clean_input_eq, hce]
    rfl
  · intro a ha
    show a ∈ PageTypeCreate_save_m2m ∅ (create_cleaned_of data)
    unfold PageTypeCreate_save_m2m
    rw [create_cleaned_of_add]
    cases hadd : data.add_attributes with
    | none =>
      rw [hadd] at ha
      cases ha
    | some l =>
      rw [hadd] at ha
      simp only [Option.getD_some] at ha
      simp [List.mem_toFinset, ha]
  · intro h
    show PageTypeCreate_save_m2m ∅ (create_cleaned_of data) = ∅
    unfold PageTypeCreate_save_m2m
    rw [create_cleaned_of_add, h]

/-- Witness for C8: `pageTypeCreate(name:"FAQ", addAttributes:[attr 1])`
with attr 1 of kind PAGE_TYPE. -/
theorem C8_create_associates_witness :
    ∃ st, pageTypeCreate_mutation
        ⟨some "FAQ", none, some [⟨1, AttributeType.PAGE_TYPE⟩]⟩ =
      (some st, none) ∧
      (∀ a ∈ (some [⟨1, AttributeType.PAGE_TYPE⟩] :
          Option (List Attribute)).getD [], a ∈ st.page_attributes) ∧
      ((some [⟨1, AttributeType.PAGE_TYPE⟩] :
          Option (List Attribute)) = none → st.page_attributes = ∅) :=
  C8_create_associates
    ⟨some "FAQ", none, some [⟨1, AttributeType.PAGE_TYPE⟩]⟩
    ⟨some (slugify "FAQ"), rfl⟩ (by decide)

/-- C9: in `PageTypeUpdate._save_m2m` the remove step operates on the add
list (the local is reassigned before `.remove()`), the remove list is
ignored entirely, and a validated update carrying only remove_attributes
leaves the association set unchanged. -/
theorem C9_save_m2m_aliasing (assoc : Finset Attribute)
    (c : PageTypeUpdateInput) (st : PageTypeState)
    (d : PageTypeUpdateInput) :
    (PageTypeUpdate_save_m2m assoc c =
      match c.add_attributes with
      | some attrs => assoc \ attrs.toFinset ∪ attrs.toFinset
      | none => assoc) ∧
    (∀ rem, PageTypeUpdate_save_m2m assoc
        { c with remove_attributes := rem } =
      PageTypeUpdate_save_m2m assoc c) ∧
    (d.add_attributes = none → d.remove_attributes ≠ none →
      (pageTypeUpdate_mutation st d).2 = none →
      (pageTypeUpdate_mutation st d).1.page_attributes =
        st.page_attributes) := by
  refine ⟨?_, fun rem => rfl, ?_⟩
  · cases hc : c.add_attributes with
    | none => simp [PageTypeUpdate_save_m2m, hc]
    | some l => simp [PageTypeUpdate_save_m2m, hc]
  · intro hadd hrem h2
    unfold pageTypeUpdate_mutation at h2 ⊢
    cases hcl : PageTypeUpdate_clean_input d with
    | error errs =>
      rw [hcl] at h2
    | ok cleaned =>
      have hcadd : cleaned.add_attributes = none := by
        rw [PageTypeUpdate_clean_input_eq] at hcl
        split at hcl
        · cases hcl
          rw [update_cleaned_of_add]
          exact hadd
        · cases hcl
      simp [PageTypeUpdate_save_m2m, hcadd]

/-- Witness for C9: a validated update with only remove_attributes leaves
the association set `{attr 1}` unchanged. -/
theorem C9_save_m2m_aliasing_witness :
    (pageTypeUpdate_mutation
      ⟨some "n", some "s", {⟨1, AttributeType.PAGE_TYPE⟩}⟩
      ⟨⟨none, some "s", none⟩,
        some [⟨1, AttributeType.PAGE_TYPE⟩]⟩).1.page_attributes =
      ({⟨1, AttributeType.PAGE_TYPE⟩} : Finset Attribute) :=
  (C9_save_m2m_aliasing ∅ ⟨⟨none, none, none⟩, none⟩
    ⟨some "n", some "s", {⟨1, AttributeType.PAGE_TYPE⟩}⟩
    ⟨⟨none, some "s", none⟩,
      some [⟨1, AttributeType.PAGE_TYPE⟩]⟩).2.2
    rfl (by decide) (by decide)

/-- C1: the claimed behaviour — remove the remove list, then add the add
list — fails on the code; evaluated at a page type whose association set is
`{attr 1}` with `remove_attributes = [attr 1]`, `add_attributes = [attr 2]`,
the validated update keeps attr 1 associated (the reassigned local makes the
remove step use the add list), yielding `{attr 1, attr 2}`, not `{attr 2}`. -/
theorem C1_remove_then_add_fails_on_code :
    ((pageTypeUpdate_mutation
      ⟨some "FAQ", some "faq", {⟨1, AttributeType.PAGE_TYPE⟩}⟩
      ⟨⟨none, some "faq", some [⟨2, AttributeType.PAGE_TYPE⟩]⟩,
        some [⟨1, AttributeType.PAGE_TYPE⟩]⟩).2 = none) ∧
    ((pageTypeUpdate_mutation
      ⟨some "FAQ", some "faq", {⟨1, AttributeType.PAGE_TYPE⟩}⟩
      ⟨⟨none, some "faq", some [⟨2, AttributeType.PAGE_TYPE⟩]⟩,
        some [⟨1, AttributeType.PAGE_TYPE⟩]⟩).1.page_attributes =
      {⟨1, AttributeType.PAGE_TYPE⟩, ⟨2, AttributeType.PAGE_TYPE⟩}) ∧
    ((pageTypeUpdate_mutation
      ⟨some "FAQ", some "faq", {⟨1, AttributeType.PAGE_TYPE⟩}⟩
      ⟨⟨none, some "faq", some [⟨2, AttributeType.PAGE_TYPE⟩]⟩,
        some [⟨1, AttributeType.PAGE_TYPE⟩]⟩).1.page_attributes ≠
      {⟨2, AttributeType.PAGE_TYPE⟩}) := by
  decide

/-- C10: PageUpdate inherits PageCreate's input cleaning unchanged — the two
cleaning functions agree on every input; in particular the slug is generated
from the title when absent, and a REQUIRED error on "slug" is raised when
both are missing. -/
theorem C10_pageupdate_inherits_clean_input :
    (∀ data, PageUpdate_clean_input data = PageCreate_clean_input data) ∧
    (∀ data t, data.slug = none → data.title = some t →
      ∃ c, PageUpdate_clean_input data = .ok c ∧
        c.slug = some (slugify t)) ∧
    (∀ data, data.slug = none → data.title = none →
      ∃ e, PageUpdate_clean_input data = .error [("slug", e)] ∧
        e.code = PageErrorCode.REQUIRED) := by
  refine ⟨fun data => rfl, ?_, ?_⟩
  · intro data t h1 h2
    unfold PageUpdate_clean_input PageCreate_clean_input
    rw [h1, h2]
    exact ⟨_, rfl, rfl⟩
  · intro data h1 h2
    unfold PageUpdate_clean_input PageCreate_clean_input
    rw [h1, h2]
    exact ⟨_, rfl, rfl⟩

/-- Witness for C10: slug generated from the title, and the REQUIRED error
when both slug and title are missing. -/
theorem C10_pageupdate_inherits_witness :
    (∃ c, PageUpdate_clean_input
        ⟨none, some "My Page", none, none, none, none, none⟩ = .ok c ∧
      c.slug = some (slugify "My Page")) ∧
    (∃ e, PageUpdate_clean_input
        ⟨none, none, none, none, none, none, none⟩ =
        .error [("slug", e)] ∧
      e.code = PageErrorCode.REQUIRED) :=
  ⟨C10_pageupdate_inherits_clean_input.2.1 _ "My Page" rfl rfl,
   C10_pageupdate_inherits_clean_input.2.2 _ rfl rfl⟩
